import Mathlib

/-!
Thermiser protocol engine: a shallow embedding with verified properties.

This file embeds the protocol core of the Thermiser Indigo plugin
(Heatmiser RS-485 thermostat driver, Python 2) into Lean 4 and proves
properties of it:

* `pm_crc.py` — the nibble-table CCITT-variant CRC-16 engine
  (`ccitt`, `addCCITTtoBytearray`, `verifyCCITTfromByteArray`);
* `pymiser.py` — frame construction (`_form_frame`), DCB decoding
  (`_parseDCB`), clock sync (`_syncClock`, `syncClock`) and temperature
  setting (`set_temp`);
* `plugin.py` — the `_setRoomTemp` job worker and its re-enqueue policy.

Modelling conventions:

* Byte buffers (`bytearray`) are `List ℕ`; where a value is a byte by
  construction this is recorded as a hypothesis or is irrelevant to the
  statement.
* The host plugin is Python 2 (`from Queue import *`, `unicode.isdigit`),
  so `/` on integers is floor division; it is modelled by `Nat` division.
* Serial I/O is modelled by passing the reply buffer that
  `comm_port.read` would return as an explicit argument, and by
  returning the list of frames written to the port.
* A Python `IndexError` (unchecked out-of-range indexing) is modelled
  by an `Option` result: `none` means the original code raises.
* Python floats appear only in `fahrenheit`; on the inputs the plugin
  uses (integers, and the constants 5 and 35) IEEE-754 double
  arithmetic computes `c * (9.0/5.0) + 32` exactly (the products round
  to 9.0 and 63.0), so the rational model used here agrees with the
  Python values at every comparison the code performs.
-/

namespace Thermiser

/-! ### CRC engine (`pm_crc.py`, class `crc`)

The Python class keeps two 8-bit accumulators `hi`/`lo` that `ccitt`
resets to `0xFF` before each computation; we model the pair as an
explicit state value threaded through a fold. -/

/-- High-byte nibble lookup table (`crc.ltH`). -/
def ltH : List ℕ :=
  [0x00, 0x10, 0x20, 0x30, 0x40, 0x50, 0x60, 0x70,
   0x81, 0x91, 0xa1, 0xb1, 0xc1, 0xd1, 0xe1, 0xf1]

/-- Low-byte nibble lookup table (`crc.ltL`). -/
def ltL : List ℕ :=
  [0x00, 0x21, 0x42, 0x63, 0x84, 0xa5, 0xc6, 0xe7,
   0x08, 0x29, 0x4a, 0x6b, 0x8c, 0xad, 0xce, 0xef]

/-- The two 8-bit CRC accumulators (`self.hi`, `self.lo`). -/
structure CRCState where
  hi : ℕ
  lo : ℕ
deriving Repr, DecidableEq

/-- One nibble update step (`crc._updateNibble`).  The Python table
lookup `ltH[t]` would raise for `t ≥ 16`; `t` stays below 16 whenever
`byte` is a nibble and `hi` is a byte, which holds on every call the
engine makes on byte input, so the `getD` default is never consulted
there. -/
def _updateNibble (s : CRCState) (byte : ℕ) : CRCState :=
  let t := (s.hi >>> 4) ^^^ byte
  let hi1 := ((s.hi <<< 4) ||| (s.lo >>> 4)) &&& 0xFF
  let hi2 := hi1 ^^^ ltH.getD t 0
  let hi3 := hi2 &&& 0xFF
  let lo1 := (s.lo <<< 4) &&& 0xFF
  let lo2 := lo1 ^^^ ltL.getD t 0
  let lo3 := lo2 &&& 0xFF
  { hi := hi3, lo := lo3 }

/-- Python `crc.ccitt`: reset the accumulators to `0xFF`, feed every
byte high nibble first, and return `(lo, hi)`. -/
def ccitt (data : List ℕ) : ℕ × ℕ :=
  let s := data.foldl
    (fun s byte => _updateNibble (_updateNibble s (byte >>> 4)) (byte &&& 0x0f))
    { hi := 0xFF, lo := 0xFF }
  (s.lo, s.hi)

/-- Python `crc.addCCITTtoBytearray`: CRC over the first `n-2` bytes,
stored into the last two positions.  Python's `data[len(data)-2] = lo`
uses a negative index when `n < 2`: for `n = 1` it writes index 0 twice
(matched here by `Nat` truncated subtraction), and for `n = 0` it
raises `IndexError` where this model returns the buffer unchanged —
both count as a round-trip failure, and every concrete buffer used in
the theorems below has `n ≥ 1`. -/
def addCCITTtoBytearray (data : List ℕ) : List ℕ :=
  let p := ccitt (data.take (data.length - 2))
  (data.set (data.length - 2) p.1).set (data.length - 1) p.2

/-- Python `crc.verifyCCITTfromByteArray`: recompute the CRC over the
first `n-2` bytes and compare with the trailing two bytes; buffers
shorter than 3 bytes are rejected outright.  (The Python
`data is None` guard has no counterpart: a `List ℕ` is never `None`.) -/
def verifyCCITTfromByteArray (data : List ℕ) : Bool :=
  if data.length < 3 then false
  else
    let p := ccitt (data.take (data.length - 2))
    (data.getD (data.length - 2) 0 == p.1) && (data.getD (data.length - 1) 0 == p.2)

/-! ### Protocol constants (`pymiser.py`, module level) -/

def FUNCTION_READ : ℕ := 0
def FUNCTION_WRITE : ℕ := 1

/-- Address of the 'master' unit, i.e. this computer (`MASTER_ADDRESS`). -/
def MASTER_ADDRESS : ℕ := 0x81

def MODEL_NAMES : List String := ["DT", "DT-E", "PRT", "PRT-E", "PRT-HW"]

def SENSOR_NAMES : List String :=
  ["built-in air only", "remote air only", "floor only",
   "built-in air + floor", "remote-air + floor"]

def FROST_PROTECTION_NAMES : List String := ["disabled", "enabled"]

def RUN_MODE_NAMES : List String := ["heating", "frost protection"]

def PROGRAM_MODE_NAMES : List String := ["5/2 mode", "7 day mode"]

def UNKNOWN_NAME : String := "(unknown)"

def MIN_TEMP_C : ℕ := 5
def MAX_TEMP_C : ℕ := 35
def TEMP_UNIT_CELSIUS : ℕ := 0
def TEMP_UNIT_FAHRENHEIT : ℕ := 1
def TEMP_UNIT_SYMBOL_CELSIUS : String := "℃"
def TEMP_UNIT_SYMBOL_FAHRENHEIT : String := "℉"

/-- A dynamically typed Python value, as far as the plugin passes one
around: the `temperature_unit` argument of `set_temp` receives either
the integer `TEMP_UNIT_FAHRENHEIT` / `TEMP_UNIT_CELSIUS` or — from
`plugin._setRoomTemp` — the *string* `TEMP_UNIT_SYMBOL_CELSIUS`, and
`set_temp` compares it with `==` against the integer 1. -/
inductive PyVal where
  | int (n : ℕ)
  | str (s : String)
deriving Repr, DecidableEq

/-- Python `PyMiser.fahrenheit`: `celsius * (9.0/5.0) + 32`, modelled
over ℚ (exact for the values the plugin feeds it; see the header
note). -/
def fahrenheit (celsius : ℚ) : ℚ := celsius * (9 / 5) + 32

/-! ### Frame codec (`PyMiser._form_frame`)

Python allocates a zero-filled `bytearray` of length `10 + len(payload)`,
fills header bytes 0–7 and the payload from offset 8, leaving the last
two bytes zero, then hands the buffer to `crc.addCCITTtoBytearray`. -/

/-- Python `PyMiser._form_frame`: `payload = none` encodes Python
`None` (a read); any payload list, `[]` included, is a write whose
length lands in the end-register field. -/
def _form_frame (destination start end_ : ℕ) (payload : Option (List ℕ)) : List ℕ :=
  let function := match payload with
    | none => FUNCTION_READ
    | some _ => FUNCTION_WRITE
  let payload_bytes := match payload with
    | none => []
    | some p => p
  let frame_length := 10 + payload_bytes.length
  addCCITTtoBytearray
    ([destination, frame_length, MASTER_ADDRESS, function,
      start &&& 0xFF, start >>> 8, end_ &&& 0xFF, end_ >>> 8]
     ++ payload_bytes ++ [0, 0])

/-! ### Transaction executor (`PyMiser.set_temp`, `_syncClock`, `syncClock`)

Each operation returns the Python result value together with the list
of frames it wrote to the serial port, in order. -/

/-- Python `PyMiser.set_temp`.  The `address`/`temp` arguments are
optional to model the Python `None` guards.  In Fahrenheit mode the
bounds are `fahrenheit(MIN_TEMP_C)` and `fahrenheit(MAX_TEMP_C)`;
on success the returned flag is the CRC check of the reply. -/
def set_temp (address : Option ℕ) (temp : Option ℤ) (temperature_unit : PyVal)
    (reply : List ℕ) : Bool × List (List ℕ) :=
  match address with
  | none => (false, [])
  | some address =>
  match temp with
  | none => (false, [])
  | some temp =>
    let minimum_set_temperature : ℚ :=
      if temperature_unit = PyVal.int TEMP_UNIT_FAHRENHEIT
      then fahrenheit (MIN_TEMP_C : ℚ) else (MIN_TEMP_C : ℚ)
    let maximum_set_temperature : ℚ :=
      if temperature_unit = PyVal.int TEMP_UNIT_FAHRENHEIT
      then fahrenheit (MAX_TEMP_C : ℚ) else (MAX_TEMP_C : ℚ)
    if (temp : ℚ) < minimum_set_temperature then (false, [])
    else if (temp : ℚ) > maximum_set_temperature then (false, [])
    else
      let payload : List ℕ := [temp.toNat]
      let frame := _form_frame address 18 payload.length (some payload)
      (verifyCCITTfromByteArray reply, [frame])

/-- Python `PyMiser._syncClock`, with `datetime.now()` made explicit:
`weekday` is `dt.isoweekday()`, and `hour`/`minute`/`second` are the
local time fields.  The second is advanced by 2 to compensate for
transmission latency and, when the sum exceeds 59, reduced by **59**
(the code as written; not a modulo-60 wrap).  The acknowledgement must
be exactly 7 bytes with a valid CRC.  (The Python `reply is None`
guard is dead: `bytearray(...)` is never `None`.) -/
def _syncClock (address weekday hour minute second : ℕ) (reply : List ℕ) :
    Bool × List (List ℕ) :=
  let second2 := second + 2
  let second3 := if second2 > 59 then second2 - 59 else second2
  let payload := [weekday, hour, minute, second3]
  let frame := _form_frame address 43 payload.length (some payload)
  if reply.length ≠ 7 then (false, [frame])
  else if ¬ verifyCCITTfromByteArray reply then (false, [frame])
  else (true, [frame])

/-- Python `PyMiser.syncClock`: sets the device clock and then re-sets
the room temperature (the thermostats revert to the frost temperature
after a clock write when no schedule is programmed).  Succeeds only if
both steps succeed; the temperature step runs only when the clock step
succeeded. -/
def syncClock (address weekday hour minute second : ℕ) (currentRoomSetTemp : ℤ)
    (temperature_unit : PyVal) (clockReply tempReply : List ℕ) :
    Bool × List (List ℕ) :=
  let r1 := _syncClock address weekday hour minute second clockReply
  if ¬ r1.1 then (false, r1.2)
  else
    let r2 := set_temp (some address) (some currentRoomSetTemp) temperature_unit tempReply
    (r2.1, r1.2 ++ r2.2)

/-! ### The `setRoomTemp` job worker (`plugin.py`, `Plugin._setRoomTemp`) -/

/-- What one execution of a queued job did: the frames it wrote, and
whether it re-enqueued itself (`self.q.put(...)` on failure) or queued
a follow-up poll (on success). -/
structure JobOutcome where
  writes : List (List ℕ)
  reenqueued : Bool
  polled : Bool
deriving Repr, DecidableEq

/-- Python `Plugin._setRoomTemp`.  `temp = none` models the
`ValueError` branch of the `int()` cast (report and return);
`address = none` models a missing address property (the code calls
`_addressFromProps`, whose failure path returns a bare `False`; the
worker then returns without queueing anything).  For a device whose
`temperatureFormat` state is not the string `F` the code passes the
*string* `TEMP_UNIT_SYMBOL_CELSIUS` — not `TEMP_UNIT_CELSIUS` — as the
unit, reproduced faithfully here.  Whenever `set_temp` returns
`False`, for any reason, the job is re-enqueued. -/
def _setRoomTemp (temp : Option ℤ) (address : Option ℕ) (temperatureFormat : String)
    (reply : List ℕ) : JobOutcome :=
  match temp with
  | none => { writes := [], reenqueued := false, polled := false }
  | some temp =>
  match address with
  | none => { writes := [], reenqueued := false, polled := false }
  | some address =>
    let temperature_format : PyVal :=
      if temperatureFormat = "F" then PyVal.int TEMP_UNIT_FAHRENHEIT
      else PyVal.str TEMP_UNIT_SYMBOL_CELSIUS
    let r := set_temp (some address) (some temp) temperature_format reply
    if r.1 then { writes := r.2, reenqueued := false, polled := true }
    else { writes := r.2, reenqueued := true, polled := false }

/-! ### Device info decoder (`PyMiser._parseDCB`)

The decoder indexes the raw block with no bounds checks; a too-short
block raises `IndexError` in Python, modelled by `none`.  The decoded
dictionary is modelled as a structure; keys the code only sets on some
paths (`programMode`, `hotWaterOn`, and the clock-echo fields) are
`Option`-valued, `none` meaning the key is absent. -/

/-- The decoded device-information dictionary of `_parseDCB`. -/
structure DCBRecord where
  frameLength : ℕ
  address : ℕ
  dcbLen : ℕ
  vendor : String
  softwareVersion : ℕ
  floorLimitState : ℕ
  modelID : ℕ
  model : String
  temperatureFormat : String
  switchDifferential : ℕ
  frostProtection : String
  calibrationOffset : ℕ
  outputDelay : ℕ
  upDownKeyLimit : ℕ
  sensorSelectionCode : ℕ
  sensor : String
  optimumStart : ℕ
  rateOfChange : ℕ
  programModeCode : ℕ
  programMode : Option String
  frostProtectTemp : ℕ
  setRoomTemp : ℕ
  floorMaxLimit : ℕ
  floorMaxLimitEnable : ℕ
  On : ℕ
  keyLock : ℕ
  runMode : String
  holidayHours : ℕ
  tempHoldMinutes : ℕ
  remoteAirTemp : Option ℕ
  floorTemp : Option ℕ
  airTemp : Option ℕ
  heatingOn : ℕ
  hotWaterOn : Option ℕ
  weekDayNumber : Option ℕ
  timeHour : Option ℕ
  timeMinute : Option ℕ
  timeSecond : Option ℕ
deriving Repr, DecidableEq

/-- Total byte read used to *state* facts about a decoded block:
byte `i` of the buffer, 0 when out of range. -/
def dcbByte (dcb : List ℕ) (i : ℕ) : ℕ := dcb.getD i 0

/-- Read byte `i` of the block and continue: the shallow embedding of
one Python indexing expression `dcb[i]`, whose `IndexError` on an
out-of-range index aborts the whole decode (`none`).  Monomorphic in
the continuation's result so that long read chains elaborate linearly. -/
def readByte (dcb : List ℕ) (i : ℕ) (k : ℕ → Option DCBRecord) : Option DCBRecord :=
  match dcb.get? i with
  | none => none
  | some b => k b

/-- Python `PyMiser._parseDCB`.  Each `readByte dcb i` is one Python
`dcb[...]` expression, in source evaluation order; the comments give
the source index (`dcb_offset = 9`).  Every 16-bit field is big-endian
(`high * 256 + low` in source order); temperatures are divided by 10
(Python 2 floor division) *before* the `0xFFFF` sentinel comparison,
exactly as the code does it.  Models 0 and 1 (DT / DT-E) stop after
`heatingOn`; model 4 (PRT-HW) reads one extra `hotWaterOn` byte and
shifts the clock-echo fields by one (the Python `dcb_offset + 1`
mutation is written out as a second tail here). -/
def _parseDCB (dcb : List ℕ) : Option DCBRecord :=
  readByte dcb 2 fun fl_high =>                                 -- dcb[2]
  readByte dcb 1 fun fl_low =>                                  -- dcb[1]
  let frameLength := fl_high * 256 + fl_low
  readByte dcb 3 fun address =>                                 -- dcb[3]
  readByte dcb 9 fun dcbLen_high =>                             -- dcb[dcb_offset]
  readByte dcb 10 fun dcbLen_low =>                             -- dcb[dcb_offset + 1]
  let dcbLen := dcbLen_high * 256 + dcbLen_low
  readByte dcb 11 fun vendor_id =>                              -- dcb[dcb_offset + 2]
  let vendor := if vendor_id = 0 then "Heatmiser" else "o.e.m."
  readByte dcb 12 fun sw =>                                     -- dcb[dcb_offset + 3]
  let softwareVersion := sw &&& 0x7f
  let floorLimitState := sw >>> 7
  readByte dcb 13 fun model_id =>                               -- dcb[dcb_offset + 4]
  let model := if model_id < MODEL_NAMES.length
    then MODEL_NAMES.getD model_id UNKNOWN_NAME else UNKNOWN_NAME
  readByte dcb 14 fun tf =>                                     -- dcb[dcb_offset + 5]
  let temperatureFormat := if tf = 0 then "C" else "F"
  readByte dcb 15 fun switchDifferential =>                     -- dcb[dcb_offset + 6]
  readByte dcb 16 fun frost_protection_code =>                  -- dcb[dcb_offset + 7]
  let frostProtection := if frost_protection_code < FROST_PROTECTION_NAMES.length
    then FROST_PROTECTION_NAMES.getD frost_protection_code UNKNOWN_NAME else UNKNOWN_NAME
  readByte dcb 17 fun calib_high =>                             -- dcb[dcb_offset + 8]
  readByte dcb 18 fun calib_low =>                              -- dcb[dcb_offset + 9]
  let calibrationOffset := calib_high * 256 + calib_low
  readByte dcb 19 fun outputDelay =>                            -- dcb[dcb_offset + 10]
  readByte dcb 21 fun upDownKeyLimit =>                         -- dcb[dcb_offset + 12]
  readByte dcb 22 fun sensor_selection_code =>                  -- dcb[dcb_offset + 13]
  let sensor := if sensor_selection_code < SENSOR_NAMES.length
    then SENSOR_NAMES.getD sensor_selection_code UNKNOWN_NAME else UNKNOWN_NAME
  readByte dcb 23 fun optimumStart =>                           -- dcb[dcb_offset + 14]
  readByte dcb 24 fun rateOfChange =>                           -- dcb[dcb_offset + 15]
  readByte dcb 25 fun program_mode_code =>                      -- dcb[dcb_offset + 16]
  let programMode := if program_mode_code < PROGRAM_MODE_NAMES.length
    then some (PROGRAM_MODE_NAMES.getD program_mode_code UNKNOWN_NAME) else none
  readByte dcb 26 fun frostProtectTemp =>                       -- dcb[dcb_offset + 17]
  readByte dcb 27 fun setRoomTemp =>                            -- dcb[dcb_offset + 18]
  readByte dcb 28 fun floorMaxLimit =>                          -- dcb[dcb_offset + 19]
  readByte dcb 28 fun floorMaxLimitEnable =>                    -- dcb[dcb_offset + 19]
  readByte dcb 30 fun on_state =>                               -- dcb[dcb_offset + 21]
  readByte dcb 31 fun keyLock =>                                -- dcb[dcb_offset + 22]
  readByte dcb 32 fun run_mode_code =>                          -- dcb[dcb_offset + 23]
  let runMode := if run_mode_code < RUN_MODE_NAMES.length
    then RUN_MODE_NAMES.getD run_mode_code UNKNOWN_NAME else UNKNOWN_NAME
  readByte dcb 33 fun holiday_high =>                           -- dcb[dcb_offset + 24]
  readByte dcb 34 fun holiday_low =>                            -- dcb[dcb_offset + 25]
  let holidayHours := holiday_high * 256 + holiday_low
  readByte dcb 35 fun hold_high =>                              -- dcb[dcb_offset + 26]
  readByte dcb 36 fun hold_low =>                               -- dcb[dcb_offset + 27]
  let tempHoldMinutes := hold_high * 256 + hold_low
  readByte dcb 37 fun remote_high =>                            -- dcb[dcb_offset + 28]
  readByte dcb 38 fun remote_low =>                             -- dcb[dcb_offset + 29]
  let remote_air_temp := (remote_high * 256 + remote_low) / 10
  let remoteAirTemp := if remote_air_temp = 0xFFFF then none else some remote_air_temp
  readByte dcb 39 fun floor_high =>                             -- dcb[dcb_offset + 30]
  readByte dcb 40 fun floor_low =>                              -- dcb[dcb_offset + 31]
  let floor_temp := (floor_high * 256 + floor_low) / 10
  let floorTemp := if floor_temp = 0xFFFF then none else some floor_temp
  readByte dcb 41 fun air_high =>                               -- dcb[dcb_offset + 32]
  readByte dcb 42 fun air_low =>                                -- dcb[dcb_offset + 33]
  let air_temp := (air_high * 256 + air_low) / 10
  let airTemp := if air_temp = 0xFFFF then none else some air_temp
  readByte dcb 44 fun heatingOn =>                              -- dcb[dcb_offset + 35]
  let base : DCBRecord :=
    { frameLength, address, dcbLen, vendor, softwareVersion, floorLimitState,
      modelID := model_id, model, temperatureFormat, switchDifferential,
      frostProtection, calibrationOffset, outputDelay, upDownKeyLimit,
      sensorSelectionCode := sensor_selection_code, sensor, optimumStart,
      rateOfChange, programModeCode := program_mode_code, programMode,
      frostProtectTemp, setRoomTemp, floorMaxLimit, floorMaxLimitEnable,
      On := on_state, keyLock, runMode, holidayHours, tempHoldMinutes,
      remoteAirTemp, floorTemp, airTemp, heatingOn,
      hotWaterOn := none, weekDayNumber := none, timeHour := none,
      timeMinute := none, timeSecond := none }
  if model_id = 0 ∨ model_id = 1 then
    some base
  else if model_id = 4 then
    readByte dcb 45 fun hot_water =>                            -- dcb[dcb_offset + 36]
    -- dcb_offset = dcb_offset + 1 from here on
    readByte dcb 46 fun weekDayNumber =>                        -- dcb[dcb_offset + 36]
    readByte dcb 47 fun timeHour =>                             -- dcb[dcb_offset + 37]
    readByte dcb 48 fun timeMinute =>                           -- dcb[dcb_offset + 38]
    readByte dcb 49 fun timeSecond =>                           -- dcb[dcb_offset + 39]
    some { base with
           hotWaterOn := some hot_water,
           weekDayNumber := some weekDayNumber, timeHour := some timeHour,
           timeMinute := some timeMinute, timeSecond := some timeSecond }
  else
    readByte dcb 45 fun weekDayNumber =>                        -- dcb[dcb_offset + 36]
    readByte dcb 46 fun timeHour =>                             -- dcb[dcb_offset + 37]
    readByte dcb 47 fun timeMinute =>                           -- dcb[dcb_offset + 38]
    readByte dcb 48 fun timeSecond =>                           -- dcb[dcb_offset + 39]
    some { base with
           weekDayNumber := some weekDayNumber,
           timeHour := some timeHour, timeMinute := some timeMinute,
           timeSecond := some timeSecond }

/-- The record `_parseDCB` produces on success, as a total function of
the block (out-of-range reads default to 0; `_parseDCB` itself returns
`none` in exactly those cases, see `parse_some_eq` and `parse_mk`). -/
def dcbRecordOf (dcb : List ℕ) : DCBRecord :=
  let model_id := dcbByte dcb 13
  let remote_air_temp := (dcbByte dcb 37 * 256 + dcbByte dcb 38) / 10
  let floor_temp := (dcbByte dcb 39 * 256 + dcbByte dcb 40) / 10
  let air_temp := (dcbByte dcb 41 * 256 + dcbByte dcb 42) / 10
  let base : DCBRecord :=
    { frameLength := dcbByte dcb 2 * 256 + dcbByte dcb 1,
      address := dcbByte dcb 3,
      dcbLen := dcbByte dcb 9 * 256 + dcbByte dcb 10,
      vendor := if dcbByte dcb 11 = 0 then "Heatmiser" else "o.e.m.",
      softwareVersion := dcbByte dcb 12 &&& 0x7f,
      floorLimitState := dcbByte dcb 12 >>> 7,
      modelID := model_id,
      model := if model_id < MODEL_NAMES.length
        then MODEL_NAMES.getD model_id UNKNOWN_NAME else UNKNOWN_NAME,
      temperatureFormat := if dcbByte dcb 14 = 0 then "C" else "F",
      switchDifferential := dcbByte dcb 15,
      frostProtection := if dcbByte dcb 16 < FROST_PROTECTION_NAMES.length
        then FROST_PROTECTION_NAMES.getD (dcbByte dcb 16) UNKNOWN_NAME else UNKNOWN_NAME,
      calibrationOffset := dcbByte dcb 17 * 256 + dcbByte dcb 18,
      outputDelay := dcbByte dcb 19,
      upDownKeyLimit := dcbByte dcb 21,
      sensorSelectionCode := dcbByte dcb 22,
      sensor := if dcbByte dcb 22 < SENSOR_NAMES.length
        then SENSOR_NAMES.getD (dcbByte dcb 22) UNKNOWN_NAME else UNKNOWN_NAME,
      optimumStart := dcbByte dcb 23,
      rateOfChange := dcbByte dcb 24,
      programModeCode := dcbByte dcb 25,
      programMode := if dcbByte dcb 25 < PROGRAM_MODE_NAMES.length
        then some (PROGRAM_MODE_NAMES.getD (dcbByte dcb 25) UNKNOWN_NAME) else none,
      frostProtectTemp := dcbByte dcb 26,
      setRoomTemp := dcbByte dcb 27,
      floorMaxLimit := dcbByte dcb 28,
      floorMaxLimitEnable := dcbByte dcb 28,
      On := dcbByte dcb 30,
      keyLock := dcbByte dcb 31,
      runMode := if dcbByte dcb 32 < RUN_MODE_NAMES.length
        then RUN_MODE_NAMES.getD (dcbByte dcb 32) UNKNOWN_NAME else UNKNOWN_NAME,
      holidayHours := dcbByte dcb 33 * 256 + dcbByte dcb 34,
      tempHoldMinutes := dcbByte dcb 35 * 256 + dcbByte dcb 36,
      remoteAirTemp := if remote_air_temp = 0xFFFF then none else some remote_air_temp,
      floorTemp := if floor_temp = 0xFFFF then none else some floor_temp,
      airTemp := if air_temp = 0xFFFF then none else some air_temp,
      heatingOn := dcbByte dcb 44,
      hotWaterOn := none, weekDayNumber := none, timeHour := none,
      timeMinute := none, timeSecond := none }
  if model_id = 0 ∨ model_id = 1 then base
  else if model_id = 4 then
    { base with
      hotWaterOn := some (dcbByte dcb 45),
      weekDayNumber := some (dcbByte dcb 46), timeHour := some (dcbByte dcb 47),
      timeMinute := some (dcbByte dcb 48), timeSecond := some (dcbByte dcb 49) }
  else
    { base with
      weekDayNumber := some (dcbByte dcb 45),
      timeHour := some (dcbByte dcb 46), timeMinute := some (dcbByte dcb 47),
      timeSecond := some (dcbByte dcb 48) }

/-- The number of bytes `_parseDCB` must be able to index for a block
whose model-id byte is `model_id`: every model reads up to index 44
(`heatingOn`), models 2, 3 and unknown ids read the four clock bytes
at 45–48, and model 4 reads the hot-water byte plus the shifted clock
bytes at 45–49. -/
def dcbRequiredLength (model_id : ℕ) : ℕ :=
  if model_id = 0 ∨ model_id = 1 then 45
  else if model_id = 4 then 50
  else 49

/-! ### Concrete sample blocks and replies used by witnesses and
counterexamples -/

/-- A 49-byte model-2 (PRT) block.  Its *declared* frame length
(bytes 2,1 big-endian) is 5 — far less than any index the decoder
reads; its vendor, frost-protection, sensor, program-mode and run-mode
codes are all outside their name tables; its three temperature words
are the `0xFFFF` sentinel. -/
def dcbPRT : List ℕ :=
  [0, 5, 0, 1, 0, 0, 0, 0, 0,
   0, 64, 2, 0x85, 2, 0, 1, 7, 0, 10, 0,
   0, 5, 9, 0, 20, 5, 7, 21, 33, 0,
   1, 0, 3, 0, 0, 0, 0, 255, 255, 255,
   255, 255, 255, 0, 1, 3, 12, 30, 45]

/-- A 50-byte model-4 (PRT-HW) block with in-range enum codes, hot
water on, and clock echo 3 / 12 / 30 / 45. -/
def dcbPRTHW : List ℕ :=
  [0, 50, 0, 2, 0, 0, 0, 0, 0,
   0, 64, 0, 0x15, 4, 0, 1, 1, 0, 10, 0,
   0, 5, 4, 0, 20, 1, 7, 21, 28, 0,
   1, 0, 0, 0, 0, 0, 0, 0, 215, 0,
   180, 0, 215, 0, 0, 1, 3, 12, 30, 45]

/-- A 45-byte model-0 (DT) block: the decode stops after `heatingOn`. -/
def dcbDT : List ℕ :=
  [0, 45, 0, 3, 0, 0, 0, 0, 0,
   0, 64, 0, 0x15, 0, 0, 1, 1, 0, 10, 0,
   0, 5, 0, 0, 20, 1, 7, 21, 28, 0,
   1, 0, 0, 0, 0, 0, 0, 0, 215, 0,
   180, 0, 215, 0, 0]

/-- A 20-byte fragment whose *declared* frame length is 64: the
decoder raises (`none`) although no index it needs is out of range for
the declared length. -/
def dcbShort : List ℕ := [0, 64, 0, 1] ++ List.replicate 16 0

/-- A well-formed 7-byte acknowledgement (5 arbitrary bytes plus a
valid CRC trailer). -/
def ackReplySample : List ℕ := addCCITTtoBytearray [4, 7, 0x81, 1, 0, 0, 0]

/-! ## Theorems -/

/-! ### List helpers -/

/-- Writing position `i` does not change the first `j ≤ i` elements. -/
theorem take_set_of_le (l : List ℕ) (i a j : ℕ) (h : j ≤ i) :
    (l.set i a).take j = l.take j := by
  induction l generalizing i j with
  | nil => simp
  | cons x xs ih =>
    cases i with
    | zero =>
      have hj : j = 0 := Nat.le_zero.mp h
      subst hj; simp
    | succ i =>
      cases j with
      | zero => simp
      | succ j => simp [List.set_cons_succ, ih i j (Nat.succ_le_succ_iff.mp h)]

/-- An in-range optional lookup, phrased with the `getD`-read used in
the statements below. -/
theorem getElem?_eq_some_getD (l : List ℕ) (i : ℕ) (hi : i < l.length) :
    l[i]? = some (l.getD i 0) := by
  rw [List.getElem?_eq_getElem hi, List.getD_eq_getElem?_getD,
    List.getElem?_eq_getElem hi]
  rfl

/-! ### CRC engine properties -/

/-- Appending the checksum trailer preserves the buffer length. -/
theorem addCCITT_length (data : List ℕ) :
    (addCCITTtoBytearray data).length = data.length := by
  simp [addCCITTtoBytearray]

/-- Appending the checksum trailer leaves the checksummed prefix intact. -/
theorem addCCITT_take (data : List ℕ) :
    (addCCITTtoBytearray data).take (data.length - 2) = data.take (data.length - 2) := by
  unfold addCCITTtoBytearray
  rw [take_set_of_le _ _ _ _ (Nat.sub_le_sub_left (by norm_num) _),
    take_set_of_le _ _ _ _ le_rfl]

/-- Appending the CRC trailer only rewrites the last two bytes. -/
theorem addCCITT_getD_of_lt (data : List ℕ) (i : ℕ) (h : i + 2 < data.length) :
    (addCCITTtoBytearray data).getD i 0 = data.getD i 0 := by
  unfold addCCITTtoBytearray
  rw [List.getD_eq_getElem?_getD, List.getElem?_set_ne (by omega),
    List.getElem?_set_ne (by omega), ← List.getD_eq_getElem?_getD]

/-- C3 counterexample: the round-trip fails on the two-byte buffer
`[0, 0]`.  `addCCITTtoBytearray` computes the CRC of the empty prefix
(`(0xFF, 0xFF)`) and overwrites both bytes, but
`verifyCCITTfromByteArray` rejects every buffer shorter than 3 bytes,
so `verifyCRC (appendCRC [0, 0])` is `false`, refuting the claim for
all byte buffers. -/
theorem crc_roundtrip_counterexample :
    verifyCCITTfromByteArray (addCCITTtoBytearray [0, 0]) = false := by decide

/-- C3 (amended): for every byte buffer of length at least 3,
appending the CRC trailer with `addCCITTtoBytearray` and then checking
it with `verifyCCITTfromByteArray` succeeds. -/
theorem crc_roundtrip (data : List ℕ) (h3 : 3 ≤ data.length) :
    verifyCCITTfromByteArray (addCCITTtoBytearray data) = true := by
  set n := data.length with hn
  set p := ccitt (data.take (n - 2)) with hp
  have hlen : (addCCITTtoBytearray data).length = n := addCCITT_length data
  have hne : n - 1 ≠ n - 2 := by omega
  have hlt2 : n - 2 < data.length := by omega
  have hlt1 : n - 1 < (data.set (n - 2) p.1).length := by simp; omega
  have e2 : (addCCITTtoBytearray data)[n - 2]? = some p.1 := by
    unfold addCCITTtoBytearray
    rw [← hn, ← hp, List.getElem?_set_ne hne, List.getElem?_set_self']
    rw [List.getElem?_eq_getElem hlt2]
    rfl
  have e1 : (addCCITTtoBytearray data)[n - 1]? = some p.2 := by
    unfold addCCITTtoBytearray
    rw [← hn, ← hp, List.getElem?_set_self', List.getElem?_eq_getElem hlt1]
    rfl
  have g2 : (addCCITTtoBytearray data).getD (n - 2) 0 = p.1 := by
    rw [List.getD_eq_getElem?_getD, e2]; rfl
  have g1 : (addCCITTtoBytearray data).getD (n - 1) 0 = p.2 := by
    rw [List.getD_eq_getElem?_getD, e1]; rfl
  have hpre : ccitt ((addCCITTtoBytearray data).take (n - 2)) = p := by
    rw [hn, addCCITT_take data, ← hn, ← hp]
  unfold verifyCCITTfromByteArray
  rw [hlen, if_neg (by omega)]
  simp only [hpre, g1, g2]
  simp

/-- C3 witness: the amended round-trip at the concrete buffer `[1, 2, 3]`. -/
theorem crc_roundtrip_witness :
    verifyCCITTfromByteArray (addCCITTtoBytearray [1, 2, 3]) = true :=
  crc_roundtrip [1, 2, 3] (by decide)

/-! ### Frame codec properties -/

/-- A constructed frame has length `10 + payloadLength`. -/
theorem _form_frame_length (destination start end_ : ℕ) (p : List ℕ) :
    (_form_frame destination start end_ (some p)).length = 10 + p.length := by
  simp [_form_frame, addCCITT_length]
  omega

/-- Byte `i < 8 + payloadLength` of a write frame is the corresponding
header or payload byte. -/
theorem _form_frame_getD (destination start end_ : ℕ) (p : List ℕ) (i : ℕ)
    (h : i < 8 + p.length) :
    (_form_frame destination start end_ (some p)).getD i 0 =
      ([destination, 10 + p.length, MASTER_ADDRESS, FUNCTION_WRITE,
        start &&& 0xFF, start >>> 8, end_ &&& 0xFF, end_ >>> 8] ++ p).getD i 0 := by
  unfold _form_frame
  rw [addCCITT_getD_of_lt _ _ (by simp; omega)]
  simp only [List.getD_eq_getElem?_getD]
  rw [List.getElem?_append_left (by simp; omega)]

/-! ### Decoder inversion: success determines the record and the length -/

/-- A successful optional lookup implies the index is in range. -/
theorem get?_some_lt (l : List ℕ) (i b : ℕ) (h : l.get? i = some b) :
    i < l.length := by
  rw [List.get?_eq_getElem?] at h
  exact (List.getElem?_eq_some.mp h).1

/-- A successful optional lookup agrees with the `getD`-read. -/
theorem get?_some_getD (l : List ℕ) (i b : ℕ) (h : l.get? i = some b) :
    l.getD i 0 = b := by
  rw [List.get?_eq_getElem?] at h
  rw [List.getD_eq_getElem?_getD, h]
  rfl

/-- Inversion principle for one byte read. -/
theorem readByte_eq_some (dcb : List ℕ) (i : ℕ) (k : ℕ → Option DCBRecord)
    (r : DCBRecord) :
    readByte dcb i k = some r ↔ ∃ b, dcb.get? i = some b ∧ k b = some r := by
  unfold readByte
  cases h : dcb.get? i <;> simp

/-- An in-range byte read just continues with the byte. -/
theorem readByte_of_lt (dcb : List ℕ) (i : ℕ) (hi : i < dcb.length) :
    ∀ k, readByte dcb i k = k (dcb.getD i 0) := by
  intro k
  unfold readByte
  rw [List.get?_eq_getElem?, getElem?_eq_some_getD dcb i hi]

/-- Decoder inversion: a successful decode pins down the block length
(all reads in range) and the resulting record (`dcbRecordOf`). -/
theorem parse_some_eq (dcb : List ℕ) (r : DCBRecord) (h : _parseDCB dcb = some r) :
    45 ≤ dcb.length ∧ dcbRequiredLength (dcbByte dcb 13) ≤ dcb.length ∧
      r = dcbRecordOf dcb := by
  simp only [_parseDCB, readByte_eq_some] at h
  obtain ⟨b2, h2, b1, h1, b3, h3, b9, h9, b10, h10, b11, h11, b12, h12, b13, h13,
    b14, h14, b15, h15, b16, h16, b17, h17, b18, h18, b19, h19, b21, h21, b22, h22,
    b23, h23, b24, h24, b25, h25, b26, h26, b27, h27, b28, h28, b28e, h28e, b30, h30,
    b31, h31, b32, h32, b33, h33, b34, h34, b35, h35, b36, h36, b37, h37, b38, h38,
    b39, h39, b40, h40, b41, h41, b42, h42, b44, h44, hrest⟩ := h
  rw [h28] at h28e
  obtain rfl := Option.some.inj h28e
  have l44 := get?_some_lt _ _ _ h44
  have e2 := get?_some_getD _ _ _ h2
  have e1 := get?_some_getD _ _ _ h1
  have e3 := get?_some_getD _ _ _ h3
  have e9 := get?_some_getD _ _ _ h9
  have e10 := get?_some_getD _ _ _ h10
  have e11 := get?_some_getD _ _ _ h11
  have e12 := get?_some_getD _ _ _ h12
  have e13 := get?_some_getD _ _ _ h13
  have e14 := get?_some_getD _ _ _ h14
  have e15 := get?_some_getD _ _ _ h15
  have e16 := get?_some_getD _ _ _ h16
  have e17 := get?_some_getD _ _ _ h17
  have e18 := get?_some_getD _ _ _ h18
  have e19 := get?_some_getD _ _ _ h19
  have e21 := get?_some_getD _ _ _ h21
  have e22 := get?_some_getD _ _ _ h22
  have e23 := get?_some_getD _ _ _ h23
  have e24 := get?_some_getD _ _ _ h24
  have e25 := get?_some_getD _ _ _ h25
  have e26 := get?_some_getD _ _ _ h26
  have e27 := get?_some_getD _ _ _ h27
  have e28 := get?_some_getD _ _ _ h28
  have e30 := get?_some_getD _ _ _ h30
  have e31 := get?_some_getD _ _ _ h31
  have e32 := get?_some_getD _ _ _ h32
  have e33 := get?_some_getD _ _ _ h33
  have e34 := get?_some_getD _ _ _ h34
  have e35 := get?_some_getD _ _ _ h35
  have e36 := get?_some_getD _ _ _ h36
  have e37 := get?_some_getD _ _ _ h37
  have e38 := get?_some_getD _ _ _ h38
  have e39 := get?_some_getD _ _ _ h39
  have e40 := get?_some_getD _ _ _ h40
  have e41 := get?_some_getD _ _ _ h41
  have e42 := get?_some_getD _ _ _ h42
  have e44 := get?_some_getD _ _ _ h44
  have hb13 : dcbByte dcb 13 = b13 := e13
  by_cases hm01 : b13 = 0 ∨ b13 = 1
  · rw [if_pos hm01] at hrest
    obtain rfl := Option.some.inj hrest
    refine ⟨by omega, ?_, ?_⟩
    · rw [hb13]
      unfold dcbRequiredLength
      rw [if_pos hm01]
      omega
    · simp only [dcbRecordOf, dcbByte, e2, e1, e3, e9, e10, e11, e12, e13, e14, e15,
        e16, e17, e18, e19, e21, e22, e23, e24, e25, e26, e27, e28, e30, e31, e32,
        e33, e34, e35, e36, e37, e38, e39, e40, e41, e42, e44]
      rw [if_pos hm01]
  · rw [if_neg hm01] at hrest
    by_cases hm4 : b13 = 4
    · rw [if_pos hm4] at hrest
      simp only [readByte_eq_some] at hrest
      obtain ⟨c45, k45, c46, k46, c47, k47, c48, k48, c49, k49, hr⟩ := hrest
      have l49 := get?_some_lt _ _ _ k49
      have e45 := get?_some_getD _ _ _ k45
      have e46 := get?_some_getD _ _ _ k46
      have e47 := get?_some_getD _ _ _ k47
      have e48 := get?_some_getD _ _ _ k48
      have e49 := get?_some_getD _ _ _ k49
      obtain rfl := Option.some.inj hr
      refine ⟨by omega, ?_, ?_⟩
      · rw [hb13]
        unfold dcbRequiredLength
        rw [if_neg hm01, if_pos hm4]
        omega
      · simp only [dcbRecordOf, dcbByte, e2, e1, e3, e9, e10, e11, e12, e13, e14,
          e15, e16, e17, e18, e19, e21, e22, e23, e24, e25, e26, e27, e28, e30,
          e31, e32, e33, e34, e35, e36, e37, e38, e39, e40, e41, e42, e44, e45,
          e46, e47, e48, e49]
        rw [if_neg hm01, if_pos hm4]
    · rw [if_neg hm4] at hrest
      simp only [readByte_eq_some] at hrest
      obtain ⟨c45, k45, c46, k46, c47, k47, c48, k48, hr⟩ := hrest
      have l48 := get?_some_lt _ _ _ k48
      have e45 := get?_some_getD _ _ _ k45
      have e46 := get?_some_getD _ _ _ k46
      have e47 := get?_some_getD _ _ _ k47
      have e48 := get?_some_getD _ _ _ k48
      obtain rfl := Option.some.inj hr
      refine ⟨by omega, ?_, ?_⟩
      · rw [hb13]
        unfold dcbRequiredLength
        rw [if_neg hm01, if_neg hm4]
        omega
      · simp only [dcbRecordOf, dcbByte, e2, e1, e3, e9, e10, e11, e12, e13, e14,
          e15, e16, e17, e18, e19, e21, e22, e23, e24, e25, e26, e27, e28, e30,
          e31, e32, e33, e34, e35, e36, e37, e38, e39, e40, e41, e42, e44, e45,
          e46, e47, e48]
        rw [if_neg hm01, if_neg hm4]

/-- Decoder construction: every block long enough for all the reads its
model id demands decodes successfully, to `dcbRecordOf`. -/
theorem parse_mk (dcb : List ℕ) (h45 : 45 ≤ dcb.length)
    (hreq : dcbRequiredLength (dcbByte dcb 13) ≤ dcb.length) :
    _parseDCB dcb = some (dcbRecordOf dcb) := by
  simp only [dcbByte] at hreq
  simp only [_parseDCB,
    readByte_of_lt dcb 2 (by omega), readByte_of_lt dcb 1 (by omega),
    readByte_of_lt dcb 3 (by omega), readByte_of_lt dcb 9 (by omega),
    readByte_of_lt dcb 10 (by omega), readByte_of_lt dcb 11 (by omega),
    readByte_of_lt dcb 12 (by omega), readByte_of_lt dcb 13 (by omega),
    readByte_of_lt dcb 14 (by omega), readByte_of_lt dcb 15 (by omega),
    readByte_of_lt dcb 16 (by omega), readByte_of_lt dcb 17 (by omega),
    readByte_of_lt dcb 18 (by omega), readByte_of_lt dcb 19 (by omega),
    readByte_of_lt dcb 21 (by omega), readByte_of_lt dcb 22 (by omega),
    readByte_of_lt dcb 23 (by omega), readByte_of_lt dcb 24 (by omega),
    readByte_of_lt dcb 25 (by omega), readByte_of_lt dcb 26 (by omega),
    readByte_of_lt dcb 27 (by omega), readByte_of_lt dcb 28 (by omega),
    readByte_of_lt dcb 30 (by omega), readByte_of_lt dcb 31 (by omega),
    readByte_of_lt dcb 32 (by omega), readByte_of_lt dcb 33 (by omega),
    readByte_of_lt dcb 34 (by omega), readByte_of_lt dcb 35 (by omega),
    readByte_of_lt dcb 36 (by omega), readByte_of_lt dcb 37 (by omega),
    readByte_of_lt dcb 38 (by omega), readByte_of_lt dcb 39 (by omega),
    readByte_of_lt dcb 40 (by omega), readByte_of_lt dcb 41 (by omega),
    readByte_of_lt dcb 42 (by omega), readByte_of_lt dcb 44 (by omega)]
  by_cases hm01 : dcb.getD 13 0 = 0 ∨ dcb.getD 13 0 = 1
  · rw [if_pos hm01]
    simp only [dcbRecordOf, dcbByte]
    rw [if_pos hm01]
  · rw [if_neg hm01]
    by_cases hm4 : dcb.getD 13 0 = 4
    · have h50 : 50 ≤ dcb.length := by
        rw [hm4] at hreq
        simpa [dcbRequiredLength] using hreq
      rw [if_pos hm4]
      simp only [readByte_of_lt dcb 45 (by omega), readByte_of_lt dcb 46 (by omega),
        readByte_of_lt dcb 47 (by omega), readByte_of_lt dcb 48 (by omega),
        readByte_of_lt dcb 49 (by omega)]
      simp only [dcbRecordOf, dcbByte]
      rw [if_neg hm01, if_pos hm4]
    · have h49 : 49 ≤ dcb.length := by
        rcases Nat.lt_or_ge (dcb.getD 13 0) 2 with hlt | hge
        · interval_cases h : dcb.getD 13 0 <;> simp_all
        · have : ¬ (dcb.getD 13 0 = 0 ∨ dcb.getD 13 0 = 1) := by omega
          simp only [dcbRequiredLength, if_neg this, if_neg hm4] at hreq
          exact hreq
      rw [if_neg hm4]
      simp only [readByte_of_lt dcb 45 (by omega), readByte_of_lt dcb 46 (by omega),
        readByte_of_lt dcb 47 (by omega), readByte_of_lt dcb 48 (by omega)]
      simp only [dcbRecordOf, dcbByte]
      rw [if_neg hm01, if_neg hm4]

/-- The model-independent fields of a decoded record, read at their
fixed offsets (base offset 9): every branch of the decoder produces
the same values for them. -/
theorem recordOf_base (dcb : List ℕ) :
    (dcbRecordOf dcb).modelID = dcbByte dcb 13 ∧
    (dcbRecordOf dcb).frameLength = dcbByte dcb 2 * 256 + dcbByte dcb 1 ∧
    (dcbRecordOf dcb).vendor = (if dcbByte dcb 11 = 0 then "Heatmiser" else "o.e.m.") ∧
    (dcbRecordOf dcb).model = (if dcbByte dcb 13 < MODEL_NAMES.length
      then MODEL_NAMES.getD (dcbByte dcb 13) UNKNOWN_NAME else UNKNOWN_NAME) ∧
    (dcbRecordOf dcb).frostProtection = (if dcbByte dcb 16 < FROST_PROTECTION_NAMES.length
      then FROST_PROTECTION_NAMES.getD (dcbByte dcb 16) UNKNOWN_NAME else UNKNOWN_NAME) ∧
    (dcbRecordOf dcb).sensor = (if dcbByte dcb 22 < SENSOR_NAMES.length
      then SENSOR_NAMES.getD (dcbByte dcb 22) UNKNOWN_NAME else UNKNOWN_NAME) ∧
    (dcbRecordOf dcb).runMode = (if dcbByte dcb 32 < RUN_MODE_NAMES.length
      then RUN_MODE_NAMES.getD (dcbByte dcb 32) UNKNOWN_NAME else UNKNOWN_NAME) ∧
    (dcbRecordOf dcb).programMode = (if dcbByte dcb 25 < PROGRAM_MODE_NAMES.length
      then some (PROGRAM_MODE_NAMES.getD (dcbByte dcb 25) UNKNOWN_NAME) else none) ∧
    (dcbRecordOf dcb).floorMaxLimit = dcbByte dcb 28 ∧
    (dcbRecordOf dcb).floorMaxLimitEnable = dcbByte dcb 28 ∧
    (dcbRecordOf dcb).remoteAirTemp = (if (dcbByte dcb 37 * 256 + dcbByte dcb 38) / 10 = 0xFFFF
      then none else some ((dcbByte dcb 37 * 256 + dcbByte dcb 38) / 10)) ∧
    (dcbRecordOf dcb).floorTemp = (if (dcbByte dcb 39 * 256 + dcbByte dcb 40) / 10 = 0xFFFF
      then none else some ((dcbByte dcb 39 * 256 + dcbByte dcb 40) / 10)) ∧
    (dcbRecordOf dcb).airTemp = (if (dcbByte dcb 41 * 256 + dcbByte dcb 42) / 10 = 0xFFFF
      then none else some ((dcbByte dcb 41 * 256 + dcbByte dcb 42) / 10)) := by
  simp only [dcbRecordOf]
  by_cases hm01 : dcbByte dcb 13 = 0 ∨ dcbByte dcb 13 = 1
  · rw [if_pos hm01]
    exact ⟨rfl, rfl, rfl, rfl, rfl, rfl, rfl, rfl, rfl, rfl, rfl, rfl, rfl⟩
  · rw [if_neg hm01]
    by_cases hm4 : dcbByte dcb 13 = 4
    · rw [if_pos hm4]
      exact ⟨rfl, rfl, rfl, rfl, rfl, rfl, rfl, rfl, rfl, rfl, rfl, rfl, rfl⟩
    · rw [if_neg hm4]
      exact ⟨rfl, rfl, rfl, rfl, rfl, rfl, rfl, rfl, rfl, rfl, rfl, rfl, rfl⟩

/-! ### Claims about the decoder -/

/-- C1 (code bug): on a block whose remote-air, floor and air words
are the raw sentinel `0xFFFF`, `_parseDCB` decodes all three fields to
the number `6553` — not to the absent marker `None`.  The code divides
by 10 *first* and only then compares with `0xFFFF`, so its sentinel
branch can never fire: `65535 / 10 = 6553 ≠ 65535` (Python 2 floor
division; under Python 3 the value would be `6553.5`, likewise never
`None`). -/
theorem parse_sentinel_not_absent :
    (_parseDCB dcbPRT).map (fun r => (r.remoteAirTemp, r.floorTemp, r.airTemp)) =
      some (some 6553, some 6553, some 6553) := by decide

/-- C5: the decoded layout is selected by the model-id byte at offset
`9 + 4`: models 0/1 omit `hotWaterOn` and all clock-echo fields;
models 2/3 carry the clock echo at offsets `9+36 … 9+39` and no
`hotWaterOn`; model 4 carries `hotWaterOn` at offset `9+36` and the
clock echo shifted one byte later (`10+36 … 10+39`). -/
theorem parse_model_layout (dcb : List ℕ) (r : DCBRecord)
    (h : _parseDCB dcb = some r) :
    r.modelID = dcbByte dcb 13 ∧
    ((r.modelID = 0 ∨ r.modelID = 1) →
      r.hotWaterOn = none ∧ r.weekDayNumber = none ∧ r.timeHour = none ∧
      r.timeMinute = none ∧ r.timeSecond = none) ∧
    ((r.modelID = 2 ∨ r.modelID = 3) →
      r.hotWaterOn = none ∧
      r.weekDayNumber = some (dcbByte dcb 45) ∧ r.timeHour = some (dcbByte dcb 46) ∧
      r.timeMinute = some (dcbByte dcb 47) ∧ r.timeSecond = some (dcbByte dcb 48)) ∧
    (r.modelID = 4 →
      r.hotWaterOn = some (dcbByte dcb 45) ∧
      r.weekDayNumber = some (dcbByte dcb 46) ∧ r.timeHour = some (dcbByte dcb 47) ∧
      r.timeMinute = some (dcbByte dcb 48) ∧ r.timeSecond = some (dcbByte dcb 49)) := by
  obtain ⟨-, -, rfl⟩ := parse_some_eq dcb r h
  have hmid : (dcbRecordOf dcb).modelID = dcbByte dcb 13 := (recordOf_base dcb).1
  refine ⟨hmid, fun hc => ?_, fun hc => ?_, fun hc => ?_⟩
  · rw [hmid] at hc
    simp only [dcbRecordOf]
    rw [if_pos hc]
    exact ⟨rfl, rfl, rfl, rfl, rfl⟩
  · rw [hmid] at hc
    have hm01 : ¬ (dcbByte dcb 13 = 0 ∨ dcbByte dcb 13 = 1) := by
      rcases hc with hc | hc <;> omega
    have hm4 : ¬ dcbByte dcb 13 = 4 := by
      rcases hc with hc | hc <;> omega
    simp only [dcbRecordOf]
    rw [if_neg hm01, if_neg hm4]
    exact ⟨rfl, rfl, rfl, rfl, rfl⟩
  · rw [hmid] at hc
    have hm01 : ¬ (dcbByte dcb 13 = 0 ∨ dcbByte dcb 13 = 1) := by omega
    simp only [dcbRecordOf]
    rw [if_neg hm01, if_pos hc]
    exact ⟨rfl, rfl, rfl, rfl, rfl⟩

/-- C5 witness: the model-4 sample block decodes with hot water on and
the clock echo taken from bytes 46–49. -/
theorem parse_model_layout_witness :
    ∃ r, _parseDCB dcbPRTHW = some r ∧ r.hotWaterOn = some 1 ∧
      r.weekDayNumber = some 3 ∧ r.timeSecond = some 45 := by
  have h := parse_model_layout dcbPRTHW (dcbRecordOf dcbPRTHW) (by decide)
  obtain ⟨-, -, -, h4⟩ := h
  obtain ⟨hw, hwd, -, -, hts⟩ := h4 (by decide)
  refine ⟨dcbRecordOf dcbPRTHW, by decide, ?_, ?_, ?_⟩
  · rw [hw]; decide
  · rw [hwd]; decide
  · rw [hts]; decide

/-- C7 counterexample: the vendor and program-mode codes do *not* get
the `(unknown)` marker.  In `dcbPRT` the vendor code is 2 (outside the
two known vendors) yet decodes to `o.e.m.`, and the program-mode code
is 5 (outside the name table) yet the `programMode` key is simply
absent (`none`) rather than an unknown marker. -/
theorem parse_unknown_codes_counterexample :
    (_parseDCB dcbPRT).map DCBRecord.vendor = some "o.e.m." ∧
    (_parseDCB dcbPRT).map DCBRecord.programMode = some none := by decide

/-- C7 (amended): out-of-range frost-protection, sensor, run-mode and
model codes decode to the `(unknown)` marker; an out-of-range vendor
code decodes to `o.e.m.`; an out-of-range program-mode code leaves the
field absent; and no enum code can make the decode fail — failure
depends only on the block length (and the length demanded by the
model id). -/
theorem parse_unknown_codes (dcb : List ℕ) :
    (∀ r, _parseDCB dcb = some r →
      (5 ≤ dcbByte dcb 13 → r.model = UNKNOWN_NAME) ∧
      (2 ≤ dcbByte dcb 16 → r.frostProtection = UNKNOWN_NAME) ∧
      (5 ≤ dcbByte dcb 22 → r.sensor = UNKNOWN_NAME) ∧
      (2 ≤ dcbByte dcb 32 → r.runMode = UNKNOWN_NAME) ∧
      (dcbByte dcb 11 ≠ 0 → r.vendor = "o.e.m.") ∧
      (2 ≤ dcbByte dcb 25 → r.programMode = none)) ∧
    (45 ≤ dcb.length → dcbRequiredLength (dcbByte dcb 13) ≤ dcb.length →
      (_parseDCB dcb).isSome = true) := by
  constructor
  · intro r h
    obtain ⟨-, -, rfl⟩ := parse_some_eq dcb r h
    obtain ⟨-, -, hv, hmo, hfr, hse, hru, hpm, -⟩ := recordOf_base dcb
    refine ⟨fun hc => ?_, fun hc => ?_, fun hc => ?_, fun hc => ?_, fun hc => ?_,
      fun hc => ?_⟩
    · have hlt : ¬ dcbByte dcb 13 < MODEL_NAMES.length := by
        have hl : MODEL_NAMES.length = 5 := rfl
        omega
      rw [hmo, if_neg hlt]
    · have hlt : ¬ dcbByte dcb 16 < FROST_PROTECTION_NAMES.length := by
        have hl : FROST_PROTECTION_NAMES.length = 2 := rfl
        omega
      rw [hfr, if_neg hlt]
    · have hlt : ¬ dcbByte dcb 22 < SENSOR_NAMES.length := by
        have hl : SENSOR_NAMES.length = 5 := rfl
        omega
      rw [hse, if_neg hlt]
    · have hlt : ¬ dcbByte dcb 32 < RUN_MODE_NAMES.length := by
        have hl : RUN_MODE_NAMES.length = 2 := rfl
        omega
      rw [hru, if_neg hlt]
    · rw [hv, if_neg hc]
    · have hlt : ¬ dcbByte dcb 25 < PROGRAM_MODE_NAMES.length := by
        have hl : PROGRAM_MODE_NAMES.length = 2 := rfl
        omega
      rw [hpm, if_neg hlt]
  · intro h45 hreq
    rw [parse_mk dcb h45 hreq]
    rfl

/-- C7 witness: on `dcbPRT` (frost code 7, sensor code 9, run-mode
code 3, vendor code 2, program-mode code 5) the decode succeeds and
produces the amended markers. -/
theorem parse_unknown_codes_witness :
    (dcbRecordOf dcbPRT).frostProtection = UNKNOWN_NAME ∧
    (dcbRecordOf dcbPRT).sensor = UNKNOWN_NAME ∧
    (dcbRecordOf dcbPRT).runMode = UNKNOWN_NAME ∧
    (dcbRecordOf dcbPRT).vendor = "o.e.m." ∧
    (dcbRecordOf dcbPRT).programMode = none ∧
    (_parseDCB dcbPRT).isSome = true := by
  have h := parse_unknown_codes dcbPRT
  obtain ⟨-, hfr, hse, hru, hv, hpm⟩ := h.1 (dcbRecordOf dcbPRT) (by decide)
  exact ⟨hfr (by decide), hse (by decide), hru (by decide), hv (by decide),
    hpm (by decide), h.2 (by decide) (by decide)⟩

/-- C8 counterexample: the decoder never consults the declared frame
length.  `dcbShort` declares frame length 64 — no index the decoder
needs is out of range for that declared length — yet the decode fails
(Python raises `IndexError`, modelled `none`) because the buffer
actually has 20 bytes.  Conversely `dcbPRT` declares frame length 5 —
every decoder index from 9 up is out of range for the declared
length — yet the decode succeeds.  There is no `MalformedBlockError`
(or any other typed error) anywhere in the code. -/
theorem parse_declared_length_counterexample :
    (_parseDCB dcbShort = none ∧ dcbShort.length = 20 ∧
      dcbByte dcbShort 2 * 256 + dcbByte dcbShort 1 = 64) ∧
    ((_parseDCB dcbPRT).isSome = true ∧ dcbPRT.length = 49 ∧
      dcbByte dcbPRT 2 * 256 + dcbByte dcbPRT 1 = 5) := by decide

/-- C8 (amended): the decode fails — with an unchecked `IndexError`,
modelled as `none`, not a typed error — exactly when the *actual*
length of the block is smaller than the bytes the decoder reads: 45
bytes through `heatingOn`, plus the model-dependent tail
(`dcbRequiredLength`).  The declared frame-length field plays no
role. -/
theorem parse_malformed_iff (dcb : List ℕ) :
    (_parseDCB dcb).isSome = true ↔
      45 ≤ dcb.length ∧ dcbRequiredLength (dcbByte dcb 13) ≤ dcb.length := by
  constructor
  · intro h
    obtain ⟨r, hr⟩ := Option.isSome_iff_exists.mp h
    obtain ⟨h45, hreq, -⟩ := parse_some_eq dcb r hr
    exact ⟨h45, hreq⟩
  · intro h
    rw [parse_mk dcb h.1 h.2]
    rfl

/-- C10: the decoded `floorMaxLimit` and `floorMaxLimitEnable` always
coincide — both are read from the same byte at offset `9 + 19`. -/
theorem parse_floorMaxLimit_eq_enable (dcb : List ℕ) (r : DCBRecord)
    (h : _parseDCB dcb = some r) : r.floorMaxLimit = r.floorMaxLimitEnable := by
  obtain ⟨-, -, rfl⟩ := parse_some_eq dcb r h
  obtain ⟨-, -, -, -, -, -, -, -, hf, hfe, -⟩ := recordOf_base dcb
  rw [hf, hfe]

/-- C10 witness: the two fields coincide on the decoded sample block. -/
theorem parse_floorMaxLimit_eq_enable_witness :
    ∃ r, _parseDCB dcbPRT = some r ∧ r.floorMaxLimit = r.floorMaxLimitEnable :=
  ⟨dcbRecordOf dcbPRT, by decide,
    parse_floorMaxLimit_eq_enable dcbPRT (dcbRecordOf dcbPRT) (by decide)⟩

/-! ### Transaction-level helper lemmas -/

/-- Whatever the reply, `_syncClock` writes exactly one frame: the
register-43 write carrying `[weekday, hour, minute, adjusted second]`. -/
theorem _syncClock_writes (address weekday hour minute second : ℕ) (reply : List ℕ) :
    (_syncClock address weekday hour minute second reply).2 =
      [_form_frame address 43 4 (some [weekday, hour, minute,
        if second + 2 > 59 then second + 2 - 59 else second + 2])] := by
  simp only [_syncClock]
  split
  · rfl
  · split <;> rfl

/-- The clock write reports success exactly for a 7-byte reply with a
valid CRC. -/
theorem _syncClock_ok_iff (address weekday hour minute second : ℕ) (reply : List ℕ) :
    (_syncClock address weekday hour minute second reply).1 = true ↔
      reply.length = 7 ∧ verifyCCITTfromByteArray reply = true := by
  simp only [_syncClock]
  by_cases h7 : reply.length = 7 <;>
    by_cases hv : verifyCCITTfromByteArray reply = true <;>
      simp [h7, hv]

/-- A successful `set_temp` saw a CRC-valid acknowledgement. -/
theorem set_temp_ok_verify (address : ℕ) (temp : ℤ) (u : PyVal) (reply : List ℕ)
    (h : (set_temp (some address) (some temp) u reply).1 = true) :
    verifyCCITTfromByteArray reply = true := by
  simp only [set_temp] at h
  by_cases hlt : (temp : ℚ) < (if u = PyVal.int TEMP_UNIT_FAHRENHEIT
      then fahrenheit (MIN_TEMP_C : ℚ) else (MIN_TEMP_C : ℚ))
  · rw [if_pos hlt] at h
    simp at h
  · rw [if_neg hlt] at h
    by_cases hgt : (temp : ℚ) > (if u = PyVal.int TEMP_UNIT_FAHRENHEIT
        then fahrenheit (MAX_TEMP_C : ℚ) else (MAX_TEMP_C : ℚ))
    · rw [if_pos hgt] at h
      simp at h
    · rw [if_neg hgt] at h
      exact h

/-- A successful `set_temp` wrote exactly the single-byte register-18
frame. -/
theorem set_temp_ok_writes (address : ℕ) (temp : ℤ) (u : PyVal) (reply : List ℕ)
    (h : (set_temp (some address) (some temp) u reply).1 = true) :
    (set_temp (some address) (some temp) u reply).2 =
      [_form_frame address 18 1 (some [temp.toNat])] := by
  simp only [set_temp] at h ⊢
  by_cases hlt : (temp : ℚ) < (if u = PyVal.int TEMP_UNIT_FAHRENHEIT
      then fahrenheit (MIN_TEMP_C : ℚ) else (MIN_TEMP_C : ℚ))
  · rw [if_pos hlt] at h
    simp at h
  · rw [if_neg hlt] at h ⊢
    by_cases hgt : (temp : ℚ) > (if u = PyVal.int TEMP_UNIT_FAHRENHEIT
        then fahrenheit (MAX_TEMP_C : ℚ) else (MAX_TEMP_C : ℚ))
    · rw [if_pos hgt] at h
      simp at h
    · rw [if_neg hgt]
      rfl

/-! ### Claims about the transactions -/

/-- C4: `set_temp` accepts exactly the temperatures in `[5, 35]` °C —
in Fahrenheit mode in `[fahrenheit 5, fahrenheit 35]` — rejecting
everything else with a `false` result and *no* bus write; an accepted
temperature is sent as the single-byte payload of a write frame to
register 18 (bytes 4/5 hold 18, byte 8 the temperature, total length
11), and the result flag is the CRC check of the acknowledgement. -/
theorem set_temp_range (address : ℕ) (temp : ℤ) (u : PyVal) (reply : List ℕ) :
    (u ≠ PyVal.int TEMP_UNIT_FAHRENHEIT →
      (((temp : ℚ) < 5 ∨ 35 < (temp : ℚ)) →
        set_temp (some address) (some temp) u reply = (false, [])) ∧
      (5 ≤ temp → temp ≤ 35 →
        set_temp (some address) (some temp) u reply =
          (verifyCCITTfromByteArray reply,
            [_form_frame address 18 1 (some [temp.toNat])]))) ∧
    (u = PyVal.int TEMP_UNIT_FAHRENHEIT →
      (((temp : ℚ) < fahrenheit 5 ∨ fahrenheit 35 < (temp : ℚ)) →
        set_temp (some address) (some temp) u reply = (false, [])) ∧
      (fahrenheit 5 ≤ (temp : ℚ) → (temp : ℚ) ≤ fahrenheit 35 →
        set_temp (some address) (some temp) u reply =
          (verifyCCITTfromByteArray reply,
            [_form_frame address 18 1 (some [temp.toNat])]))) ∧
    (_form_frame address 18 1 (some [temp.toNat])).length = 11 ∧
    (_form_frame address 18 1 (some [temp.toNat])).getD 3 0 = FUNCTION_WRITE ∧
    (_form_frame address 18 1 (some [temp.toNat])).getD 4 0 = 18 ∧
    (_form_frame address 18 1 (some [temp.toNat])).getD 5 0 = 0 ∧
    (_form_frame address 18 1 (some [temp.toNat])).getD 8 0 = temp.toNat := by
  have hminC : ((MIN_TEMP_C : ℕ) : ℚ) = 5 := by norm_num [MIN_TEMP_C]
  have hmaxC : ((MAX_TEMP_C : ℕ) : ℚ) = 35 := by norm_num [MAX_TEMP_C]
  refine ⟨fun hu => ⟨fun hout => ?_, fun h5 h35 => ?_⟩,
    fun hu => ⟨fun hout => ?_, fun hlo hhi => ?_⟩, ?_, ?_, ?_, ?_, ?_⟩
  · simp only [set_temp, if_neg hu, hminC, hmaxC]
    rcases hout with h | h
    · rw [if_pos h]
    · have hnl : ¬ (temp : ℚ) < 5 := by linarith
      rw [if_neg hnl, if_pos h]
  · have hlo : (5 : ℚ) ≤ (temp : ℚ) := by exact_mod_cast h5
    have hhi : (temp : ℚ) ≤ (35 : ℚ) := by exact_mod_cast h35
    simp only [set_temp, if_neg hu, hminC, hmaxC]
    rw [if_neg (not_lt.mpr hlo), if_neg (not_lt.mpr hhi)]
    rfl
  · simp only [set_temp, if_pos hu, hminC, hmaxC]
    rcases hout with h | h
    · rw [if_pos h]
    · have hnl : ¬ (temp : ℚ) < fahrenheit 5 := by
        have h41 : fahrenheit 5 = 41 := by norm_num [fahrenheit]
        have h95 : fahrenheit 35 = 95 := by norm_num [fahrenheit]
        rw [h41]
        rw [h95] at h
        linarith
      rw [if_neg hnl, if_pos h]
  · simp only [set_temp, if_pos hu, hminC, hmaxC]
    rw [if_neg (not_lt.mpr hlo), if_neg (not_lt.mpr hhi)]
    rfl
  · rw [_form_frame_length]
    rfl
  · rw [_form_frame_getD address 18 1 [temp.toNat] 3 (by norm_num)]
    rfl
  · rw [_form_frame_getD address 18 1 [temp.toNat] 4 (by norm_num)]
    rfl
  · rw [_form_frame_getD address 18 1 [temp.toNat] 5 (by norm_num)]
    rfl
  · rw [_form_frame_getD address 18 1 [temp.toNat] 8 (by norm_num)]
    rfl

/-- C4 witness: in Celsius mode 4 and 36 are rejected without a write,
while 5 and 35 are accepted and produce the register-18 frame. -/
theorem set_temp_range_witness :
    set_temp (some 3) (some 4) (PyVal.str TEMP_UNIT_SYMBOL_CELSIUS) [] = (false, []) ∧
    set_temp (some 3) (some 36) (PyVal.str TEMP_UNIT_SYMBOL_CELSIUS) [] = (false, []) ∧
    (set_temp (some 3) (some 5) (PyVal.str TEMP_UNIT_SYMBOL_CELSIUS) []).2 =
      [_form_frame 3 18 1 (some [(5 : ℤ).toNat])] ∧
    (set_temp (some 3) (some 35) (PyVal.str TEMP_UNIT_SYMBOL_CELSIUS) []).2 =
      [_form_frame 3 18 1 (some [(35 : ℤ).toNat])] := by
  have h4 := set_temp_range 3 4 (PyVal.str TEMP_UNIT_SYMBOL_CELSIUS) []
  have h36 := set_temp_range 3 36 (PyVal.str TEMP_UNIT_SYMBOL_CELSIUS) []
  have h5 := set_temp_range 3 5 (PyVal.str TEMP_UNIT_SYMBOL_CELSIUS) []
  have h35 := set_temp_range 3 35 (PyVal.str TEMP_UNIT_SYMBOL_CELSIUS) []
  refine ⟨(h4.1 (by decide)).1 (by norm_num), (h36.1 (by decide)).1 (by norm_num),
    ?_, ?_⟩
  · rw [(h5.1 (by decide)).2 (by norm_num) (by norm_num)]
  · rw [(h35.1 (by decide)).2 (by norm_num) (by norm_num)]

/-- C6 counterexample: at local second 58 the transmitted second byte
(frame offset 11) is `1`, not `(58 + 2) % 60 = 0`: the wrap subtracts
59, not 60. -/
theorem syncClock_second_wrap_counterexample :
    ((_syncClock 1 1 0 0 58 []).2.getD 0 []).getD 11 0 = 1 ∧
    (58 + 2) % 60 = 0 ∧
    ((_syncClock 1 1 0 0 58 []).2.getD 0 []).getD 11 0 ≠ (58 + 2) % 60 := by decide

/-- C6 (amended): `_syncClock` writes one frame targeting register 43
(bytes 4/5), a write (byte 3) of the 4-byte payload
`[weekday, hour, minute, adjusted second]` (bytes 8–11), where the
adjusted second is `second + 2` when that is at most 59 and
`second + 2 - 59` — not `(second + 2) % 60` — when it exceeds 59. -/
theorem syncClock_second_wrap (address weekday hour minute second : ℕ)
    (reply : List ℕ) :
    ∃ frame, (_syncClock address weekday hour minute second reply).2 = [frame] ∧
      frame.length = 14 ∧
      frame.getD 3 0 = FUNCTION_WRITE ∧
      frame.getD 4 0 = 43 ∧ frame.getD 5 0 = 0 ∧
      frame.getD 6 0 = 4 ∧ frame.getD 7 0 = 0 ∧
      frame.getD 8 0 = weekday ∧ frame.getD 9 0 = hour ∧ frame.getD 10 0 = minute ∧
      (second + 2 ≤ 59 → frame.getD 11 0 = second + 2) ∧
      (59 < second + 2 → frame.getD 11 0 = second + 2 - 59) := by
  refine ⟨_form_frame address 43 4 (some [weekday, hour, minute,
      if second + 2 > 59 then second + 2 - 59 else second + 2]),
    _syncClock_writes address weekday hour minute second reply,
    ?_, ?_, ?_, ?_, ?_, ?_, ?_, ?_, ?_, fun hle => ?_, fun hgt => ?_⟩
  · rw [_form_frame_length]
    rfl
  · rw [_form_frame_getD _ 43 4 _ 3 (by norm_num)]
    rfl
  · rw [_form_frame_getD _ 43 4 _ 4 (by norm_num)]
    rfl
  · rw [_form_frame_getD _ 43 4 _ 5 (by norm_num)]
    rfl
  · rw [_form_frame_getD _ 43 4 _ 6 (by norm_num)]
    rfl
  · rw [_form_frame_getD _ 43 4 _ 7 (by norm_num)]
    rfl
  · rw [_form_frame_getD _ 43 4 _ 8 (by norm_num)]
    rfl
  · rw [_form_frame_getD _ 43 4 _ 9 (by norm_num)]
    rfl
  · rw [_form_frame_getD _ 43 4 _ 10 (by norm_num)]
    rfl
  · rw [_form_frame_getD _ 43 4 _ 11 (by norm_num)]
    show (if second + 2 > 59 then second + 2 - 59 else second + 2) = second + 2
    rw [if_neg (by omega)]
  · rw [_form_frame_getD _ 43 4 _ 11 (by norm_num)]
    show (if second + 2 > 59 then second + 2 - 59 else second + 2) = second + 2 - 59
    rw [if_pos (by omega)]

/-- C6 witness: at second 58 the amended wrap gives byte `1` at frame
offset 11. -/
theorem syncClock_second_wrap_witness :
    ∃ frame, (_syncClock 1 1 0 0 58 []).2 = [frame] ∧ frame.getD 11 0 = 1 := by
  obtain ⟨f, hf, -, -, -, -, -, -, -, -, -, -, hwrap⟩ :=
    syncClock_second_wrap 1 1 0 0 58 []
  exact ⟨f, hf, by rw [hwrap (by norm_num)]⟩

/-- C9: a fully successful `syncClock` performed two transactions —
first the register-43 clock write, then the register-18 temperature
write — and it succeeds only when the clock acknowledgement is 7 bytes
with a valid CRC *and* the temperature acknowledgement has a valid
CRC; moreover, whenever the clock phase succeeds the temperature
transaction follows (with whatever `set_temp` transmits), and the
overall result is `set_temp`'s result. -/
theorem syncClock_two_transactions (address weekday hour minute second : ℕ)
    (currentRoomSetTemp : ℤ) (u : PyVal) (clockReply tempReply : List ℕ) :
    ((syncClock address weekday hour minute second currentRoomSetTemp u
        clockReply tempReply).1 = true →
      clockReply.length = 7 ∧
      verifyCCITTfromByteArray clockReply = true ∧
      verifyCCITTfromByteArray tempReply = true ∧
      (syncClock address weekday hour minute second currentRoomSetTemp u
        clockReply tempReply).2 =
        [_form_frame address 43 4 (some [weekday, hour, minute,
          if second + 2 > 59 then second + 2 - 59 else second + 2]),
         _form_frame address 18 1 (some [currentRoomSetTemp.toNat])] ∧
      ((syncClock address weekday hour minute second currentRoomSetTemp u
        clockReply tempReply).2.getD 0 []).getD 4 0 = 43 ∧
      ((syncClock address weekday hour minute second currentRoomSetTemp u
        clockReply tempReply).2.getD 1 []).getD 4 0 = 18) ∧
    ((_syncClock address weekday hour minute second clockReply).1 = true →
      (syncClock address weekday hour minute second currentRoomSetTemp u
        clockReply tempReply).2 =
        (_syncClock address weekday hour minute second clockReply).2 ++
          (set_temp (some address) (some currentRoomSetTemp) u tempReply).2 ∧
      (syncClock address weekday hour minute second currentRoomSetTemp u
        clockReply tempReply).1 =
        (set_temp (some address) (some currentRoomSetTemp) u tempReply).1) := by
  constructor
  · intro h
    by_cases h1 : (_syncClock address weekday hour minute second clockReply).1 = true
    · have hred : syncClock address weekday hour minute second currentRoomSetTemp u
          clockReply tempReply =
          ((set_temp (some address) (some currentRoomSetTemp) u tempReply).1,
            (_syncClock address weekday hour minute second clockReply).2 ++
              (set_temp (some address) (some currentRoomSetTemp) u tempReply).2) := by
        simp only [syncClock]
        rw [if_neg (by simp [h1])]
      rw [hred] at h
      have h2 : (set_temp (some address) (some currentRoomSetTemp) u tempReply).1
          = true := h
      obtain ⟨h7, hcv⟩ := (_syncClock_ok_iff address weekday hour minute second
        clockReply).mp h1
      have htv := set_temp_ok_verify address currentRoomSetTemp u tempReply h2
      have hwrites : (syncClock address weekday hour minute second
          currentRoomSetTemp u clockReply tempReply).2 =
          [_form_frame address 43 4 (some [weekday, hour, minute,
            if second + 2 > 59 then second + 2 - 59 else second + 2]),
           _form_frame address 18 1 (some [currentRoomSetTemp.toNat])] := by
        rw [hred]
        show (_syncClock address weekday hour minute second clockReply).2 ++
          (set_temp (some address) (some currentRoomSetTemp) u tempReply).2 = _
        rw [_syncClock_writes, set_temp_ok_writes address currentRoomSetTemp u
          tempReply h2]
        rfl
      refine ⟨h7, hcv, htv, hwrites, ?_, ?_⟩
      · rw [hwrites]
        show (_form_frame address 43 4 (some [weekday, hour, minute,
          if second + 2 > 59 then second + 2 - 59 else second + 2])).getD 4 0 = 43
        rw [_form_frame_getD _ 43 4 _ 4 (by norm_num)]
        rfl
      · rw [hwrites]
        show (_form_frame address 18 1
          (some [currentRoomSetTemp.toNat])).getD 4 0 = 18
        rw [_form_frame_getD _ 18 1 _ 4 (by norm_num)]
        rfl
    · exfalso
      have hred : syncClock address weekday hour minute second currentRoomSetTemp u
          clockReply tempReply =
          (false, (_syncClock address weekday hour minute second clockReply).2) := by
        simp only [syncClock]
        rw [if_pos (by simp [h1])]
      rw [hred] at h
      exact Bool.false_ne_true h
  · intro h1
    have hred : syncClock address weekday hour minute second currentRoomSetTemp u
        clockReply tempReply =
        ((set_temp (some address) (some currentRoomSetTemp) u tempReply).1,
          (_syncClock address weekday hour minute second clockReply).2 ++
            (set_temp (some address) (some currentRoomSetTemp) u tempReply).2) := by
      simp only [syncClock]
      rw [if_neg (by simp [h1])]
    rw [hred]
    exact ⟨rfl, rfl⟩

/-- C9 witness: with CRC-valid 7-byte acknowledgements and an in-range
temperature, `syncClock` issued the register-43 and register-18 frames
in order. -/
theorem syncClock_two_transactions_witness :
    (syncClock 1 3 12 30 10 21 (PyVal.int TEMP_UNIT_CELSIUS)
      ackReplySample ackReplySample).2 =
      [_form_frame 1 43 4 (some [3, 12, 30, 12]),
       _form_frame 1 18 1 (some [(21 : ℤ).toNat])] ∧
    ((syncClock 1 3 12 30 10 21 (PyVal.int TEMP_UNIT_CELSIUS)
      ackReplySample ackReplySample).2.getD 0 []).getD 4 0 = 43 ∧
    ((syncClock 1 3 12 30 10 21 (PyVal.int TEMP_UNIT_CELSIUS)
      ackReplySample ackReplySample).2.getD 1 []).getD 4 0 = 18 := by
  obtain ⟨-, -, -, hw, h0, h1⟩ :=
    (syncClock_two_transactions 1 3 12 30 10 21 (PyVal.int TEMP_UNIT_CELSIUS)
      ackReplySample ackReplySample).1 (by decide)
  exact ⟨hw, h0, h1⟩

/-- C2 (code bug): an out-of-range `setRoomTemp` job (40 °C on a
Celsius device) writes nothing to the bus, yet the worker re-enqueues
it: `plugin._setRoomTemp` treats every `False` from `set_temp` —
including the pre-transmission range rejection — as a communication
failure ("did not reply … re-queueing"), so the job retries forever
instead of being dropped. -/
theorem setRoomTemp_out_of_range_reenqueued :
    _setRoomTemp (some 40) (some 3) "C" [] =
      { writes := [], reenqueued := true, polled := false } := by decide

end Thermiser
